import Mathlib

/-!
Shallow embedding of src/net/nimble/host/src/ble_hs_adv.c (Apache Mynewt
NimBLE host advertising-data codec).

Conventions of the embedding:
* Machine bytes are Nat values; wherever the C code stores into or reads
  from a uint8_t, the embedding reduces modulo 256.
* The destination buffer of the serializer is represented by a write log:
  a list of (index, value) pairs, one entry per byte store the C code
  performs, in program order.  The uint8_t cursor *dst_len is carried
  alongside.  applyWrites recovers the final buffer contents.
* The source buffer of the parser is a total function Nat -> Nat together
  with an explicit src_len; every access reduces the fetched value mod 256.
* Fallible C functions returning an int error code become Except Nat with
  0 omitted (success carries the updated state instead).
* ble_hs_adv_set_fields returns the pair (rc, final write state), matching
  the C calling convention of an int return plus in-out buffer arguments.
-/

/-- Modelled from the spec: size-exceeded error code BLE_HS_EMSGSIZE,
defined in the host error table (header not part of the sources). -/
def BLE_HS_EMSGSIZE : Nat := 4

/-- Modelled from the spec: bad-data error code BLE_HS_EBADDATA,
defined in the host error table (header not part of the sources). -/
def BLE_HS_EBADDATA : Nat := 10

/-- Modelled from the spec: maximum advertising payload size (31 bytes). -/
def BLE_HS_ADV_MAX_SZ : Nat := 31

/-- Modelled from the spec: maximum representable field size, the 31-byte
payload maximum minus the 2-byte record header. -/
def BLE_HS_ADV_MAX_FIELD_SZ : Nat := BLE_HS_ADV_MAX_SZ - 2

/-- AD type codes, from the fixed type-code table (spec section 6). -/
def BLE_HS_ADV_TYPE_FLAGS : Nat := 0x01

def BLE_HS_ADV_TYPE_INCOMP_UUIDS16 : Nat := 0x02

def BLE_HS_ADV_TYPE_COMP_UUIDS16 : Nat := 0x03

def BLE_HS_ADV_TYPE_INCOMP_UUIDS32 : Nat := 0x04

def BLE_HS_ADV_TYPE_COMP_UUIDS32 : Nat := 0x05

def BLE_HS_ADV_TYPE_INCOMP_UUIDS128 : Nat := 0x06

def BLE_HS_ADV_TYPE_COMP_UUIDS128 : Nat := 0x07

def BLE_HS_ADV_TYPE_INCOMP_NAME : Nat := 0x08

def BLE_HS_ADV_TYPE_COMP_NAME : Nat := 0x09

def BLE_HS_ADV_TYPE_TX_PWR_LVL : Nat := 0x0a

def BLE_HS_ADV_TYPE_DEVICE_CLASS : Nat := 0x0d

def BLE_HS_ADV_TYPE_SLAVE_ITVL_RANGE : Nat := 0x12

def BLE_HS_ADV_TYPE_SVC_DATA_UUID16 : Nat := 0x16

def BLE_HS_ADV_TYPE_PUBLIC_TGT_ADDR : Nat := 0x17

def BLE_HS_ADV_TYPE_APPEARANCE : Nat := 0x19

def BLE_HS_ADV_TYPE_ADV_ITVL : Nat := 0x1a

def BLE_HS_ADV_TYPE_LE_ADDR : Nat := 0x1b

def BLE_HS_ADV_TYPE_LE_ROLE : Nat := 0x1c

def BLE_HS_ADV_TYPE_SVC_DATA_UUID32 : Nat := 0x20

def BLE_HS_ADV_TYPE_SVC_DATA_UUID128 : Nat := 0x21

def BLE_HS_ADV_TYPE_URI : Nat := 0x24

def BLE_HS_ADV_TYPE_MFG_DATA : Nat := 0xff

/-- Modelled from the spec: per-type length constants from the missing
header (flags exactly 1, tx power exactly 1, appearance exactly 2, ...). -/
def BLE_HS_ADV_FLAGS_LEN : Nat := 1

def BLE_HS_ADV_TX_PWR_LVL_LEN : Nat := 1

def BLE_HS_ADV_DEVICE_CLASS_LEN : Nat := 3

def BLE_HS_ADV_SLAVE_ITVL_RANGE_LEN : Nat := 4

def BLE_HS_ADV_SVC_DATA_UUID16_MIN_LEN : Nat := 2

def BLE_HS_ADV_PUBLIC_TGT_ADDR_ENTRY_LEN : Nat := 6

def BLE_HS_ADV_APPEARANCE_LEN : Nat := 2

def BLE_HS_ADV_ADV_ITVL_LEN : Nat := 2

def BLE_HS_ADV_LE_ADDR_LEN : Nat := 7

def BLE_HS_ADV_LE_ROLE_LEN : Nat := 1

def BLE_HS_ADV_SVC_DATA_UUID32_MIN_LEN : Nat := 4

def BLE_HS_ADV_SVC_DATA_UUID128_MIN_LEN : Nat := 16

/-- Modelled from the spec: the tx-power auto sentinel requesting the
collaborator query (a distinguished int8 value, -128). -/
def BLE_HS_ADV_TX_PWR_LVL_AUTO : Int := -128

/-- Serializer state: the write log of (byte index, byte value) stores made
into the caller's destination buffer, in program order; the uint8_t cursor
*dst_len; and whether BLE_HS_DBG_ASSERT(data_len > 0) in
ble_hs_adv_set_flat was ever violated. -/
structure WState where
  writes : List (Nat × Nat)
  dst_len : Nat
  assertFailed : Bool
deriving DecidableEq

/-- Equality of Except results is decidable, so concrete runs of the
embedded functions can be checked by evaluation. -/
instance {ε α : Type} [DecidableEq ε] [DecidableEq α] :
    DecidableEq (Except ε α) := fun x y =>
  match x, y with
  | .ok a, .ok b =>
      if h : a = b then .isTrue (h ▸ rfl)
      else .isFalse (fun hc => h (Except.ok.inj hc))
  | .error a, .error b =>
      if h : a = b then .isTrue (h ▸ rfl)
      else .isFalse (fun hc => h (Except.error.inj hc))
  | .ok _, .error _ => .isFalse (fun hc => Except.noConfusion hc)
  | .error _, .ok _ => .isFalse (fun hc => Except.noConfusion hc)

/-- Read n bytes starting at a caller-supplied buffer, as memcpy does;
bytes beyond the supplied list model unspecified caller memory (zero). -/
def readBytes (data : List Nat) (n : Nat) : List Nat :=
  (List.range n).map (fun i => data.getD i 0)

/-- The write-log entries of storing the given bytes at consecutive
indices starting at base. -/
def memWrites (base : Nat) (bytes : List Nat) : List (Nat × Nat) :=
  bytes.enum.map (fun p => (base + p.1, p.2 % 256))

/-- Recover the final buffer contents from the write log (last store to an
index wins; unwritten bytes read as zero). -/
def applyWrites (l : List (Nat × Nat)) : Nat → Nat :=
  fun i => l.foldl (fun acc p => if p.1 = i then p.2 else acc) 0

/-- Little-endian bytes of a 16-bit store (htole16). -/
def le16Bytes (v : Nat) : List Nat :=
  [v % 256, (v / 256) % 256]

/-- Little-endian bytes of a 32-bit store (htole32). -/
def le32Bytes (v : Nat) : List Nat :=
  [v % 256, (v / 256) % 256, (v / 65536) % 256, (v / 16777216) % 256]

/-- The byte stored by the C code for an int8_t value (two's complement). -/
def i8Byte (v : Int) : Nat :=
  (v % 256).toNat

/-- The int8_t value the C code reads back from a byte. -/
def i8OfByte (b : Nat) : Int :=
  if b % 256 < 128 then (b % 256 : Nat) else (b % 256 : Nat) - 256

/-- ble_hs_adv_set_hdr (ble_hs_adv.c lines 29-43): writes the 2-byte record
header (length byte = data_len + 1, then the type byte) at the cursor and
advances the cursor by 2, unless cursor + 2 + data_len would exceed
max_len, in which case it fails with BLE_HS_EMSGSIZE and stores nothing.
All arguments are uint8_t in the source. -/
def ble_hs_adv_set_hdr (type data_len max_len : Nat) (s : WState) :
    Except Nat WState :=
  if s.dst_len + 2 + data_len > max_len then
    .error BLE_HS_EMSGSIZE
  else
    .ok { writes := s.writes ++
            [(s.dst_len, (data_len + 1) % 256), (s.dst_len + 1, type % 256)],
          dst_len := (s.dst_len + 2) % 256,
          assertFailed := s.assertFailed }

/-- ble_hs_adv_set_flat (ble_hs_adv.c lines 45-66): asserts data_len > 0
(recorded in assertFailed), writes the header, then memcpys data_len bytes
and advances the cursor by data_len.  In the source data_len is an int: it
is truncated to uint8_t at the ble_hs_adv_set_hdr call, while the memcpy
and the cursor addition use the full value. -/
def ble_hs_adv_set_flat (type : Nat) (data_len : Nat) (data : List Nat)
    (max_len : Nat) (s : WState) : Except Nat WState :=
  let s0 : WState := { s with assertFailed := s.assertFailed || data_len == 0 }
  match ble_hs_adv_set_hdr type (data_len % 256) max_len s0 with
  | .error rc => .error rc
  | .ok s1 =>
      .ok { s1 with
            writes := s1.writes ++ memWrites s1.dst_len (readBytes data data_len),
            dst_len := (s1.dst_len + data_len) % 256 }

/-- The element loop of ble_hs_adv_set_array16: htole16 each element at the
cursor, cursor += 2 (uint8_t) per element. -/
def writeArray16 : List Nat → WState → WState
  | [], s => s
  | v :: rest, s =>
      writeArray16 rest
        { s with writes := s.writes ++ memWrites s.dst_len (le16Bytes v),
                 dst_len := (s.dst_len + 2) % 256 }

/-- The element loop of ble_hs_adv_set_array32. -/
def writeArray32 : List Nat → WState → WState
  | [], s => s
  | v :: rest, s =>
      writeArray32 rest
        { s with writes := s.writes ++ memWrites s.dst_len (le32Bytes v),
                 dst_len := (s.dst_len + 4) % 256 }

/-- ble_hs_adv_set_array16 (ble_hs_adv.c lines 68-87): header with
payload num_elems * 2 (truncated to uint8_t at the set_hdr parameter),
then each element little-endian.  elems[i] is read for i < num_elems;
reads beyond the supplied list model unspecified caller memory. -/
def ble_hs_adv_set_array16 (type num_elems : Nat) (elems : List Nat)
    (max_len : Nat) (s : WState) : Except Nat WState :=
  match ble_hs_adv_set_hdr type ((num_elems * 2) % 256) max_len s with
  | .error rc => .error rc
  | .ok s1 => .ok (writeArray16 ((List.range num_elems).map (elems.getD · 0)) s1)

/-- ble_hs_adv_set_array32 (ble_hs_adv.c lines 89-108). -/
def ble_hs_adv_set_array32 (type num_elems : Nat) (elems : List Nat)
    (max_len : Nat) (s : WState) : Except Nat WState :=
  match ble_hs_adv_set_hdr type ((num_elems * 4) % 256) max_len s with
  | .error rc => .error rc
  | .ok s1 => .ok (writeArray32 ((List.range num_elems).map (elems.getD · 0)) s1)

/-- struct ble_hs_adv_fields.  Pointer-plus-count pairs of the C struct are
represented as Option lists: none is a null pointer, and the associated
count/length field of the struct is the list length (for the uuid and
public-target-address arrays, the element count is the byte length divided
by the element size, as produced by the parser). -/
structure ble_hs_adv_fields where
  flags : Nat := 0
  flags_is_present : Bool := false
  uuids16 : Option (List Nat) := none
  uuids16_is_complete : Bool := false
  uuids32 : Option (List Nat) := none
  uuids32_is_complete : Bool := false
  uuids128 : Option (List Nat) := none
  uuids128_is_complete : Bool := false
  name : Option (List Nat) := none
  name_is_complete : Bool := false
  tx_pwr_lvl : Int := 0
  tx_pwr_lvl_is_present : Bool := false
  device_class : Option (List Nat) := none
  slave_itvl_range : Option (List Nat) := none
  svc_data_uuid16 : Option (List Nat) := none
  public_tgt_addr : Option (List Nat) := none
  appearance : Nat := 0
  appearance_is_present : Bool := false
  adv_itvl : Nat := 0
  adv_itvl_is_present : Bool := false
  le_addr : Option (List Nat) := none
  le_role : Nat := 0
  le_role_is_present : Bool := false
  svc_data_uuid32 : Option (List Nat) := none
  svc_data_uuid128 : Option (List Nat) := none
  uri : Option (List Nat) := none
  mfg_data : Option (List Nat) := none
deriving DecidableEq

/-- num_uuids16 field of the struct (element count of the uuids16 array). -/
def ble_hs_adv_fields.num_uuids16 (f : ble_hs_adv_fields) : Nat :=
  (f.uuids16.getD []).length

def ble_hs_adv_fields.num_uuids32 (f : ble_hs_adv_fields) : Nat :=
  (f.uuids32.getD []).length

/-- num_uuids128: the uuids128 pointer addresses 16 bytes per element. -/
def ble_hs_adv_fields.num_uuids128 (f : ble_hs_adv_fields) : Nat :=
  (f.uuids128.getD []).length / 16

def ble_hs_adv_fields.name_len (f : ble_hs_adv_fields) : Nat :=
  (f.name.getD []).length

def ble_hs_adv_fields.svc_data_uuid16_len (f : ble_hs_adv_fields) : Nat :=
  (f.svc_data_uuid16.getD []).length

def ble_hs_adv_fields.num_public_tgt_addrs (f : ble_hs_adv_fields) : Nat :=
  (f.public_tgt_addr.getD []).length / BLE_HS_ADV_PUBLIC_TGT_ADDR_ENTRY_LEN

def ble_hs_adv_fields.svc_data_uuid32_len (f : ble_hs_adv_fields) : Nat :=
  (f.svc_data_uuid32.getD []).length

def ble_hs_adv_fields.svc_data_uuid128_len (f : ble_hs_adv_fields) : Nat :=
  (f.svc_data_uuid128.getD []).length

def ble_hs_adv_fields.uri_len (f : ble_hs_adv_fields) : Nat :=
  (f.uri.getD []).length

def ble_hs_adv_fields.mfg_data_len (f : ble_hs_adv_fields) : Nat :=
  (f.mfg_data.getD []).length

/-- Result of rc = writer(...) when the return code is discarded: on
success the state advances, on failure the previous state is kept.  Used
for the flags field of ble_hs_adv_set_fields, whose rc the source never
checks (ble_hs_adv.c lines 142-145). -/
def ignoreRc (r : Except Nat WState) (s : WState) : WState :=
  match r with
  | .ok s1 => s1
  | .error _ => s

/-- One conditional writer step of ble_hs_adv_set_fields: if the field is
present, run the writer; a nonzero rc is returned to the caller together
with the state as it was before the failing writer (which stores nothing
on failure). -/
def runStep (cond : Bool) (w : WState → Except Nat WState) (s : WState) :
    Except (Nat × WState) WState :=
  if cond then
    match w s with
    | .ok s1 => .ok s1
    | .error rc => .error (rc, s)
  else .ok s

/-- The tx-power step body of ble_hs_adv_set_fields (source lines
209-228): resolve the level — querying the collaborator when the auto
sentinel was supplied, propagating its failure — then write the 1-byte
field. -/
def txPwrWriter (txq : Except Nat Int) (lvl : Int) (max_len : Nat)
    (s : WState) : Except Nat WState :=
  match (if lvl == BLE_HS_ADV_TX_PWR_LVL_AUTO then txq else .ok lvl) with
  | .error rc => .error rc
  | .ok v => ble_hs_adv_set_flat BLE_HS_ADV_TYPE_TX_PWR_LVL 1 [i8Byte v] max_len s

/-- Package the outcome of the writer chain as the C function does: rc 0
with the final state on success, the propagated rc with the state left by
the failing step otherwise. -/
def finishRc (r : Except (Nat × WState) WState) : Nat × WState :=
  match r with
  | .ok s => (0, s)
  | .error p => p

/-- ble_hs_adv_set_fields (ble_hs_adv.c lines 115-361).  txq is the
external collaborator ble_hs_hci_util_read_adv_tx_pwr, queried only for a
present tx-power field holding the auto sentinel; its nonzero rc, or the
read int8 value, is supplied by the environment.  Returns (rc, state). -/
def ble_hs_adv_set_fields (f : ble_hs_adv_fields) (txq : Except Nat Int)
    (max_len : Nat) : Nat × WState :=
  let s0 : WState := ⟨[], 0, false⟩
  -- 0x01 flags: the source assigns rc but never tests it.
  let s1 := if f.flags_is_present && f.flags != 0 then
      ignoreRc (ble_hs_adv_set_flat BLE_HS_ADV_TYPE_FLAGS 1 [f.flags % 256]
        max_len s0) s0
    else s0
  let chain : Except (Nat × WState) WState := do
    let s ← runStep (f.uuids16.isSome && f.num_uuids16 != 0)
      (ble_hs_adv_set_array16
        (if f.uuids16_is_complete then BLE_HS_ADV_TYPE_COMP_UUIDS16
         else BLE_HS_ADV_TYPE_INCOMP_UUIDS16)
        f.num_uuids16 (f.uuids16.getD []) max_len) s1
    let s ← runStep (f.uuids32.isSome && f.num_uuids32 != 0)
      (ble_hs_adv_set_array32
        (if f.uuids32_is_complete then BLE_HS_ADV_TYPE_COMP_UUIDS32
         else BLE_HS_ADV_TYPE_INCOMP_UUIDS32)
        f.num_uuids32 (f.uuids32.getD []) max_len) s
    let s ← runStep (f.uuids128.isSome && f.num_uuids128 != 0)
      (ble_hs_adv_set_flat
        (if f.uuids128_is_complete then BLE_HS_ADV_TYPE_COMP_UUIDS128
         else BLE_HS_ADV_TYPE_INCOMP_UUIDS128)
        (f.num_uuids128 * 16) (f.uuids128.getD []) max_len) s
    let s ← runStep (f.name.isSome && f.name_len != 0)
      (ble_hs_adv_set_flat
        (if f.name_is_complete then BLE_HS_ADV_TYPE_COMP_NAME
         else BLE_HS_ADV_TYPE_INCOMP_NAME)
        f.name_len (f.name.getD []) max_len) s
    let s ← runStep f.tx_pwr_lvl_is_present
      (txPwrWriter txq f.tx_pwr_lvl max_len) s
    let s ← runStep f.device_class.isSome
      (ble_hs_adv_set_flat BLE_HS_ADV_TYPE_DEVICE_CLASS
        BLE_HS_ADV_DEVICE_CLASS_LEN (f.device_class.getD []) max_len) s
    let s ← runStep f.slave_itvl_range.isSome
      (ble_hs_adv_set_flat BLE_HS_ADV_TYPE_SLAVE_ITVL_RANGE
        BLE_HS_ADV_SLAVE_ITVL_RANGE_LEN (f.slave_itvl_range.getD []) max_len) s
    let s ← runStep f.svc_data_uuid16.isSome
      (ble_hs_adv_set_flat BLE_HS_ADV_TYPE_SVC_DATA_UUID16
        f.svc_data_uuid16_len (f.svc_data_uuid16.getD []) max_len) s
    let s ← runStep (f.public_tgt_addr.isSome && f.num_public_tgt_addrs != 0)
      (ble_hs_adv_set_flat BLE_HS_ADV_TYPE_PUBLIC_TGT_ADDR
        (BLE_HS_ADV_PUBLIC_TGT_ADDR_ENTRY_LEN * f.num_public_tgt_addrs)
        (f.public_tgt_addr.getD []) max_len) s
    let s ← runStep f.appearance_is_present
      (ble_hs_adv_set_flat BLE_HS_ADV_TYPE_APPEARANCE
        BLE_HS_ADV_APPEARANCE_LEN (le16Bytes f.appearance) max_len) s
    let s ← runStep f.adv_itvl_is_present
      (ble_hs_adv_set_array16 BLE_HS_ADV_TYPE_ADV_ITVL 1
        [f.adv_itvl] max_len) s
    let s ← runStep f.le_addr.isSome
      (ble_hs_adv_set_flat BLE_HS_ADV_TYPE_LE_ADDR
        BLE_HS_ADV_LE_ADDR_LEN (f.le_addr.getD []) max_len) s
    let s ← runStep f.le_role_is_present
      (ble_hs_adv_set_flat BLE_HS_ADV_TYPE_LE_ROLE
        BLE_HS_ADV_LE_ROLE_LEN [f.le_role % 256] max_len) s
    let s ← runStep f.svc_data_uuid32.isSome
      (ble_hs_adv_set_flat BLE_HS_ADV_TYPE_SVC_DATA_UUID32
        f.svc_data_uuid32_len (f.svc_data_uuid32.getD []) max_len) s
    let s ← runStep f.svc_data_uuid128.isSome
      (ble_hs_adv_set_flat BLE_HS_ADV_TYPE_SVC_DATA_UUID128
        f.svc_data_uuid128_len (f.svc_data_uuid128.getD []) max_len) s
    let s ← runStep f.uri.isSome
      (ble_hs_adv_set_flat BLE_HS_ADV_TYPE_URI
        f.uri_len (f.uri.getD []) max_len) s
    let s ← runStep f.mfg_data.isSome
      (ble_hs_adv_set_flat BLE_HS_ADV_TYPE_MFG_DATA
        f.mfg_data_len (f.mfg_data.getD []) max_len) s
    pure s
  finishRc chain

/-- Fetch one byte of the parse source (values reduce modulo 256). -/
def byteAt (src : Nat → Nat) (i : Nat) : Nat :=
  src i % 256

/-- The first n bytes of a parse source region. -/
def bytesOf (data : Nat → Nat) (n : Nat) : List Nat :=
  (List.range n).map (byteAt data)

/-- ble_hs_adv_parse_uuids16 (ble_hs_adv.c lines 363-381): the payload
must be an even number of bytes; the le16toh-decoded elements replace the
uuids16 field (the C code materializes them into shared scratch storage
and sets the pointer and count). -/
def ble_hs_adv_parse_uuids16 (f : ble_hs_adv_fields) (data : Nat → Nat)
    (data_len : Nat) : Except Nat ble_hs_adv_fields :=
  if data_len % 2 != 0 then
    .error BLE_HS_EBADDATA
  else
    .ok { f with uuids16 := some ((List.range (data_len / 2)).map
            (fun i => byteAt data (i * 2) + 256 * byteAt data (i * 2 + 1))) }

/-- ble_hs_adv_parse_uuids32 (ble_hs_adv.c lines 383-401). -/
def ble_hs_adv_parse_uuids32 (f : ble_hs_adv_fields) (data : Nat → Nat)
    (data_len : Nat) : Except Nat ble_hs_adv_fields :=
  if data_len % 4 != 0 then
    .error BLE_HS_EBADDATA
  else
    .ok { f with uuids32 := some ((List.range (data_len / 4)).map
            (fun i => byteAt data (i * 4) + 256 * byteAt data (i * 4 + 1)
              + 65536 * byteAt data (i * 4 + 2)
              + 16777216 * byteAt data (i * 4 + 3))) }

/-- The switch statement of ble_hs_adv_parse_one_field (ble_hs_adv.c lines
429-598), dispatching on the type byte.  Note the two 32-bit UUID cases
(source lines 454-468) assign uuids16_is_complete, exactly as the source
does.  Unrecognized type codes fall through to the default case and
succeed without touching any field. -/
def ble_hs_adv_parse_one_field_body (f : ble_hs_adv_fields) (type : Nat)
    (data : Nat → Nat) (data_len : Nat) : Except Nat ble_hs_adv_fields :=
  if type = BLE_HS_ADV_TYPE_FLAGS then
    if data_len ≠ BLE_HS_ADV_FLAGS_LEN then .error BLE_HS_EBADDATA
    else .ok { f with flags := byteAt data 0, flags_is_present := true }
  else if type = BLE_HS_ADV_TYPE_INCOMP_UUIDS16 then
    match ble_hs_adv_parse_uuids16 f data data_len with
    | .error rc => .error rc
    | .ok f1 => .ok { f1 with uuids16_is_complete := false }
  else if type = BLE_HS_ADV_TYPE_COMP_UUIDS16 then
    match ble_hs_adv_parse_uuids16 f data data_len with
    | .error rc => .error rc
    | .ok f1 => .ok { f1 with uuids16_is_complete := true }
  else if type = BLE_HS_ADV_TYPE_INCOMP_UUIDS32 then
    match ble_hs_adv_parse_uuids32 f data data_len with
    | .error rc => .error rc
    | .ok f1 => .ok { f1 with uuids16_is_complete := false }
  else if type = BLE_HS_ADV_TYPE_COMP_UUIDS32 then
    match ble_hs_adv_parse_uuids32 f data data_len with
    | .error rc => .error rc
    | .ok f1 => .ok { f1 with uuids16_is_complete := true }
  else if type = BLE_HS_ADV_TYPE_INCOMP_UUIDS128 then
    if data_len % 16 ≠ 0 then .error BLE_HS_EBADDATA
    else .ok { f with uuids128 := some (bytesOf data data_len),
                      uuids128_is_complete := false }
  else if type = BLE_HS_ADV_TYPE_COMP_UUIDS128 then
    if data_len % 16 ≠ 0 then .error BLE_HS_EBADDATA
    else .ok { f with uuids128 := some (bytesOf data data_len),
                      uuids128_is_complete := true }
  else if type = BLE_HS_ADV_TYPE_INCOMP_NAME then
    .ok { f with name := some (bytesOf data data_len),
                 name_is_complete := false }
  else if type = BLE_HS_ADV_TYPE_COMP_NAME then
    .ok { f with name := some (bytesOf data data_len),
                 name_is_complete := true }
  else if type = BLE_HS_ADV_TYPE_TX_PWR_LVL then
    if data_len ≠ BLE_HS_ADV_TX_PWR_LVL_LEN then .error BLE_HS_EBADDATA
    else .ok { f with tx_pwr_lvl := i8OfByte (byteAt data 0),
                      tx_pwr_lvl_is_present := true }
  else if type = BLE_HS_ADV_TYPE_DEVICE_CLASS then
    if data_len ≠ BLE_HS_ADV_DEVICE_CLASS_LEN then .error BLE_HS_EBADDATA
    else .ok { f with device_class := some (bytesOf data data_len) }
  else if type = BLE_HS_ADV_TYPE_SLAVE_ITVL_RANGE then
    if data_len ≠ BLE_HS_ADV_SLAVE_ITVL_RANGE_LEN then .error BLE_HS_EBADDATA
    else .ok { f with slave_itvl_range := some (bytesOf data data_len) }
  else if type = BLE_HS_ADV_TYPE_SVC_DATA_UUID16 then
    if data_len < BLE_HS_ADV_SVC_DATA_UUID16_MIN_LEN then .error BLE_HS_EBADDATA
    else .ok { f with svc_data_uuid16 := some (bytesOf data data_len) }
  else if type = BLE_HS_ADV_TYPE_PUBLIC_TGT_ADDR then
    if data_len % BLE_HS_ADV_PUBLIC_TGT_ADDR_ENTRY_LEN ≠ 0 then
      .error BLE_HS_EBADDATA
    else .ok { f with public_tgt_addr := some (bytesOf data data_len) }
  else if type = BLE_HS_ADV_TYPE_APPEARANCE then
    if data_len ≠ BLE_HS_ADV_APPEARANCE_LEN then .error BLE_HS_EBADDATA
    else .ok { f with appearance := byteAt data 0 + 256 * byteAt data 1,
                      appearance_is_present := true }
  else if type = BLE_HS_ADV_TYPE_ADV_ITVL then
    if data_len ≠ BLE_HS_ADV_ADV_ITVL_LEN then .error BLE_HS_EBADDATA
    else .ok { f with adv_itvl := byteAt data 0 + 256 * byteAt data 1,
                      adv_itvl_is_present := true }
  else if type = BLE_HS_ADV_TYPE_LE_ADDR then
    if data_len ≠ BLE_HS_ADV_LE_ADDR_LEN then .error BLE_HS_EBADDATA
    else .ok { f with le_addr := some (bytesOf data data_len) }
  else if type = BLE_HS_ADV_TYPE_LE_ROLE then
    if data_len ≠ BLE_HS_ADV_LE_ROLE_LEN then .error BLE_HS_EBADDATA
    else .ok { f with le_role := byteAt data 0, le_role_is_present := true }
  else if type = BLE_HS_ADV_TYPE_SVC_DATA_UUID32 then
    if data_len < BLE_HS_ADV_SVC_DATA_UUID32_MIN_LEN then .error BLE_HS_EBADDATA
    else .ok { f with svc_data_uuid32 := some (bytesOf data data_len) }
  else if type = BLE_HS_ADV_TYPE_SVC_DATA_UUID128 then
    if data_len < BLE_HS_ADV_SVC_DATA_UUID128_MIN_LEN then .error BLE_HS_EBADDATA
    else .ok { f with svc_data_uuid128 := some (bytesOf data data_len) }
  else if type = BLE_HS_ADV_TYPE_URI then
    .ok { f with uri := some (bytesOf data data_len) }
  else if type = BLE_HS_ADV_TYPE_MFG_DATA then
    .ok { f with mfg_data := some (bytesOf data data_len) }
  else
    .ok f

/-- ble_hs_adv_parse_one_field (ble_hs_adv.c lines 403-601): requires one
byte for the length field; total_len = src[0] + 1 in uint8_t arithmetic;
requires src_len >= total_len; reads the type byte; data_len =
total_len - 2 in uint8_t arithmetic; rejects data_len above
BLE_HS_ADV_MAX_FIELD_SZ; then dispatches.  On success also returns
total_len, the out-parameter the caller advances by. -/
def ble_hs_adv_parse_one_field (f : ble_hs_adv_fields) (src : Nat → Nat)
    (src_len : Nat) : Except Nat (ble_hs_adv_fields × Nat) :=
  if src_len < 1 then
    .error BLE_HS_EMSGSIZE
  else
    let total_len := (byteAt src 0 + 1) % 256
    if src_len < total_len then
      .error BLE_HS_EMSGSIZE
    else
      let type := byteAt src 1
      let data : Nat → Nat := fun i => src (2 + i)
      let data_len := (total_len + 254) % 256
      if data_len > BLE_HS_ADV_MAX_FIELD_SZ then
        .error BLE_HS_EBADDATA
      else
        match ble_hs_adv_parse_one_field_body f type data data_len with
        | .error rc => .error rc
        | .ok f1 => .ok (f1, total_len)

/-- The loop of ble_hs_adv_parse_fields: while unconsumed bytes remain,
parse one record and advance by its total length.  Termination: a
successful record parse always consumes at least two bytes (its data_len
of total_len - 2 in uint8_t arithmetic passed the maximum-field-size
check, which rules out the wrapped values 254 and 255), so the unconsumed
length strictly decreases. -/
def ble_hs_adv_parse_fields_go (f : ble_hs_adv_fields) (src : Nat → Nat)
    (src_len : Nat) : Except Nat ble_hs_adv_fields :=
  if h0 : src_len = 0 then
    .ok f
  else
    match hp : ble_hs_adv_parse_one_field f src src_len with
    | .error rc => .error rc
    | .ok (f1, field_len) =>
        ble_hs_adv_parse_fields_go f1 (fun i => src (i + field_len))
          (src_len - field_len)
termination_by src_len
decreasing_by
  simp only [ble_hs_adv_parse_one_field] at hp
  split at hp
  · cases hp
  · split at hp
    · cases hp
    · split at hp
      · cases hp
      · split at hp
        · cases hp
        · rename_i h1 h2 h3 _
          injection hp with hp1
          injection hp1 with _ hlen
          simp only [BLE_HS_ADV_MAX_FIELD_SZ, BLE_HS_ADV_MAX_SZ] at *
          omega

/-- ble_hs_adv_parse_fields (ble_hs_adv.c lines 603-623): zeroes the
destination field set (memset), then iterates the records. -/
def ble_hs_adv_parse_fields (src : Nat → Nat) (src_len : Nat) :
    Except Nat ble_hs_adv_fields :=
  ble_hs_adv_parse_fields_go {} src src_len

/-- Data-relative byte offsets read by the switch of
ble_hs_adv_parse_one_field for a given type byte and payload length.
Only the flags, UUID16/32 list, tx-power, appearance, advertising-interval
and LE-role cases dereference the payload; every other case (including the
default) records a pointer or length without reading payload bytes, and a
case reads its payload only after its own length check passed. -/
def ble_hs_adv_parse_one_field_body_reads (type data_len : Nat) : List Nat :=
  if type = BLE_HS_ADV_TYPE_FLAGS then
    if data_len ≠ BLE_HS_ADV_FLAGS_LEN then [] else [0]
  else if type = BLE_HS_ADV_TYPE_INCOMP_UUIDS16 ∨
          type = BLE_HS_ADV_TYPE_COMP_UUIDS16 then
    if data_len % 2 ≠ 0 then []
    else (List.range (data_len / 2)).flatMap (fun i => [i * 2, i * 2 + 1])
  else if type = BLE_HS_ADV_TYPE_INCOMP_UUIDS32 ∨
          type = BLE_HS_ADV_TYPE_COMP_UUIDS32 then
    if data_len % 4 ≠ 0 then []
    else (List.range (data_len / 4)).flatMap
      (fun i => [i * 4, i * 4 + 1, i * 4 + 2, i * 4 + 3])
  else if type = BLE_HS_ADV_TYPE_TX_PWR_LVL then
    if data_len ≠ BLE_HS_ADV_TX_PWR_LVL_LEN then [] else [0]
  else if type = BLE_HS_ADV_TYPE_APPEARANCE then
    if data_len ≠ BLE_HS_ADV_APPEARANCE_LEN then [] else [0, 1]
  else if type = BLE_HS_ADV_TYPE_ADV_ITVL then
    if data_len ≠ BLE_HS_ADV_ADV_ITVL_LEN then [] else [0, 1]
  else if type = BLE_HS_ADV_TYPE_LE_ROLE then
    if data_len ≠ BLE_HS_ADV_LE_ROLE_LEN then [] else [0]
  else []

/-- The absolute source-buffer indices ble_hs_adv_parse_one_field accesses,
in program order: index 0 for the length byte (read before any bounds
check beyond src_len >= 1), then index 1 for the type byte — read as soon
as the src_len < total_len check passes, even when total_len < 2 — then
the payload bytes the dispatched case dereferences. -/
def ble_hs_adv_parse_one_field_reads (src : Nat → Nat) (src_len : Nat) :
    List Nat :=
  if src_len < 1 then []
  else
    let total_len := (byteAt src 0 + 1) % 256
    if src_len < total_len then [0]
    else
      let data_len := (total_len + 254) % 256
      if data_len > BLE_HS_ADV_MAX_FIELD_SZ then [0, 1]
      else [0, 1] ++
        (ble_hs_adv_parse_one_field_body_reads (byteAt src 1) data_len).map (2 + ·)

/-- The type codes recognized by the parser switch. -/
def knownAdTypes : List Nat :=
  [BLE_HS_ADV_TYPE_FLAGS, BLE_HS_ADV_TYPE_INCOMP_UUIDS16,
   BLE_HS_ADV_TYPE_COMP_UUIDS16, BLE_HS_ADV_TYPE_INCOMP_UUIDS32,
   BLE_HS_ADV_TYPE_COMP_UUIDS32, BLE_HS_ADV_TYPE_INCOMP_UUIDS128,
   BLE_HS_ADV_TYPE_COMP_UUIDS128, BLE_HS_ADV_TYPE_INCOMP_NAME,
   BLE_HS_ADV_TYPE_COMP_NAME, BLE_HS_ADV_TYPE_TX_PWR_LVL,
   BLE_HS_ADV_TYPE_DEVICE_CLASS, BLE_HS_ADV_TYPE_SLAVE_ITVL_RANGE,
   BLE_HS_ADV_TYPE_SVC_DATA_UUID16, BLE_HS_ADV_TYPE_PUBLIC_TGT_ADDR,
   BLE_HS_ADV_TYPE_APPEARANCE, BLE_HS_ADV_TYPE_ADV_ITVL,
   BLE_HS_ADV_TYPE_LE_ADDR, BLE_HS_ADV_TYPE_LE_ROLE,
   BLE_HS_ADV_TYPE_SVC_DATA_UUID32, BLE_HS_ADV_TYPE_SVC_DATA_UUID128,
   BLE_HS_ADV_TYPE_URI, BLE_HS_ADV_TYPE_MFG_DATA]

/-- Field set exercising the flags-writer rc that the source discards. -/
def c1fields : ble_hs_adv_fields :=
  { flags := 6, flags_is_present := true }

/-- Field set with a complete 32-bit UUID list, for the round trip. -/
def c2fields : ble_hs_adv_fields :=
  { uuids32 := some [1], uuids32_is_complete := true }

/-- Field set with sixteen 128-bit UUIDs: payload 256 bytes, truncated to
0 in the uint8_t size check while memcpy still copies all 256 bytes. -/
def c3fields : ble_hs_adv_fields :=
  { uuids128 := some (List.replicate 256 0) }

/-- A one-record source whose unrecognized type is followed by a flags
record: length byte 3, unknown type 0xf0, two payload bytes, then the
record 02 01 06. -/
def c6src : Nat → Nat :=
  fun i => [3, 240, 9, 9, 2, 1, 6].getD i 0

/-- A single self-consistent record of 41 bytes with unrecognized type:
length byte 40, type byte 0xf0, 39 payload bytes. -/
def c6big : Nat → Nat :=
  fun i => if i = 0 then 40 else if i = 1 then 240 else 0

/-- Field set whose service-data pointer is non-null with length 0. -/
def c8fields : ble_hs_adv_fields :=
  { svc_data_uuid16 := some [] }

/-- Field set of the concrete spec scenario: flags 0x06 and complete name
Foo (bytes 46 6f 6f). -/
def c9fields : ble_hs_adv_fields :=
  { flags := 6, flags_is_present := true,
    name := some [0x46, 0x6f, 0x6f], name_is_complete := true }

/-- The per-field payload sizes ble_hs_adv_set_fields hands to the
writers all fit a uint8_t, so no size is truncated at the
ble_hs_adv_set_hdr parameter (the int-typed sizes of the uuid128 and
public-target-address fields, and the element counts of the uuid arrays,
can otherwise exceed 255). -/
def sizesFit (f : ble_hs_adv_fields) : Prop :=
  f.num_uuids16 * 2 < 256 ∧ f.num_uuids32 * 4 < 256 ∧
  f.num_uuids128 * 16 < 256 ∧ f.name_len < 256 ∧
  f.svc_data_uuid16_len < 256 ∧
  BLE_HS_ADV_PUBLIC_TGT_ADDR_ENTRY_LEN * f.num_public_tgt_addrs < 256 ∧
  f.svc_data_uuid32_len < 256 ∧ f.svc_data_uuid128_len < 256 ∧
  f.uri_len < 256 ∧ f.mfg_data_len < 256

/-- The total encoded size of a field set: for each attribute
ble_hs_adv_set_fields would emit (same conditions as the source), a
2-byte header plus its payload. -/
def encodedSz (f : ble_hs_adv_fields) : Nat :=
  (if f.flags_is_present && f.flags != 0 then 2 + 1 else 0) +
  (if f.uuids16.isSome && f.num_uuids16 != 0 then 2 + f.num_uuids16 * 2 else 0) +
  (if f.uuids32.isSome && f.num_uuids32 != 0 then 2 + f.num_uuids32 * 4 else 0) +
  (if f.uuids128.isSome && f.num_uuids128 != 0 then 2 + f.num_uuids128 * 16 else 0) +
  (if f.name.isSome && f.name_len != 0 then 2 + f.name_len else 0) +
  (if f.tx_pwr_lvl_is_present then 2 + 1 else 0) +
  (if f.device_class.isSome then 2 + BLE_HS_ADV_DEVICE_CLASS_LEN else 0) +
  (if f.slave_itvl_range.isSome then 2 + BLE_HS_ADV_SLAVE_ITVL_RANGE_LEN else 0) +
  (if f.svc_data_uuid16.isSome then 2 + f.svc_data_uuid16_len else 0) +
  (if f.public_tgt_addr.isSome && f.num_public_tgt_addrs != 0 then
    2 + BLE_HS_ADV_PUBLIC_TGT_ADDR_ENTRY_LEN * f.num_public_tgt_addrs else 0) +
  (if f.appearance_is_present then 2 + BLE_HS_ADV_APPEARANCE_LEN else 0) +
  (if f.adv_itvl_is_present then 2 + 1 * 2 else 0) +
  (if f.le_addr.isSome then 2 + BLE_HS_ADV_LE_ADDR_LEN else 0) +
  (if f.le_role_is_present then 2 + BLE_HS_ADV_LE_ROLE_LEN else 0) +
  (if f.svc_data_uuid32.isSome then 2 + f.svc_data_uuid32_len else 0) +
  (if f.svc_data_uuid128.isSome then 2 + f.svc_data_uuid128_len else 0) +
  (if f.uri.isSome then 2 + f.uri_len else 0) +
  (if f.mfg_data.isSome then 2 + f.mfg_data_len else 0)

/-- Invariant of the serializer state: write-log length equals the cursor
and the cursor stays within max_len. -/
def StateOk (max_len : Nat) (s : WState) : Prop :=
  s.writes.length = s.dst_len ∧ s.dst_len ≤ max_len

/-- The serializer-state invariant on a chain outcome: it holds for the
carried state whether the chain succeeded or stopped with an rc. -/
def ResOk (max_len : Nat) : Except (Nat × WState) WState → Prop
  | .ok s => StateOk max_len s
  | .error p => StateOk max_len p.2

/-- Unfolding lemma: the parse loop stops with success on an empty rest. -/
theorem parse_fields_go_zero (f : ble_hs_adv_fields) (src : Nat → Nat) :
    ble_hs_adv_parse_fields_go f src 0 = .ok f := by
  rw [ble_hs_adv_parse_fields_go]
  rfl

/-- Unfolding lemma: one iteration of the parse loop. -/
theorem parse_fields_go_succ (f : ble_hs_adv_fields) (src : Nat → Nat)
    (src_len : Nat) (h : src_len ≠ 0) :
    ble_hs_adv_parse_fields_go f src src_len =
      match ble_hs_adv_parse_one_field f src src_len with
      | .error rc => .error rc
      | .ok (f1, n) =>
          ble_hs_adv_parse_fields_go f1 (fun i => src (i + n)) (src_len - n) := by
  rw [ble_hs_adv_parse_fields_go, dif_neg h]
  split <;> (rename_i heq; rw [heq])

/-- A failing first record makes ble_hs_adv_parse_fields fail with the
same error. -/
theorem parse_fields_error (src : Nat → Nat) (src_len rc : Nat)
    (h : src_len ≠ 0)
    (hp : ble_hs_adv_parse_one_field {} src src_len = .error rc) :
    ble_hs_adv_parse_fields src src_len = .error rc := by
  rw [ble_hs_adv_parse_fields, parse_fields_go_succ _ _ _ h, hp]

/-- A source consisting of one whole record parses to that record's
field set. -/
theorem parse_fields_single (src : Nat → Nat) (src_len : Nat)
    (f1 : ble_hs_adv_fields)
    (h : src_len ≠ 0)
    (hp : ble_hs_adv_parse_one_field {} src src_len = .ok (f1, src_len)) :
    ble_hs_adv_parse_fields src src_len = .ok f1 := by
  rw [ble_hs_adv_parse_fields, parse_fields_go_succ _ _ _ h, hp]
  simp only [Nat.sub_self]
  exact parse_fields_go_zero _ _

/-- C1: a nonzero rc from the flags field writer is assigned but never
tested by ble_hs_adv_set_fields (source lines 142-145): with flags present
and max_len 2 the writer fails with BLE_HS_EMSGSIZE, yet the builder
continues and returns 0 with the flags record missing, instead of
returning the error as the claim states. -/
theorem c1_flags_writer_error_discarded :
    ble_hs_adv_set_flat BLE_HS_ADV_TYPE_FLAGS 1 [6] 2 ⟨[], 0, false⟩
      = .error BLE_HS_EMSGSIZE ∧
    ble_hs_adv_set_fields c1fields (.ok 0) 2 = (0, ⟨[], 0, false⟩) := by
  decide

/-- C2: the round trip drops the uuids32_is_complete flag: serializing a
complete 32-bit UUID list and parsing the bytes back yields a field set
whose uuids32_is_complete is false (and whose uuids16_is_complete is true),
because the parser cases for both 32-bit UUID types assign
uuids16_is_complete (source lines 454-468). -/
theorem c2_roundtrip_loses_uuids32_complete :
    c2fields.uuids32_is_complete = true ∧
    (ble_hs_adv_set_fields c2fields (.ok 0) 31).1 = 0 ∧
    (ble_hs_adv_set_fields c2fields (.ok 0) 31).2.dst_len = 6 ∧
    ble_hs_adv_parse_fields
        (applyWrites (ble_hs_adv_set_fields c2fields (.ok 0) 31).2.writes) 6
      = .ok { uuids32 := some [1], uuids32_is_complete := false,
              uuids16_is_complete := true } := by
  refine ⟨by decide, by decide, by decide, ?_⟩
  exact parse_fields_single _ 6 _ (by decide) (by decide)

set_option maxRecDepth 8192 in
/-- C3 counterexample: with sixteen 128-bit UUIDs the payload size 256 is
truncated to 0 in ble_hs_adv_set_hdr's uint8_t parameter, the size guard
passes, and set_fields reports success after storing 258 bytes into a
destination whose max_len is 31 — the claimed bound is violated. -/
theorem c3_counterexample :
    (ble_hs_adv_set_fields c3fields (.ok 0) 31).1 = 0 ∧
    (ble_hs_adv_set_fields c3fields (.ok 0) 31).2.writes.length = 258 ∧
    ¬ (ble_hs_adv_set_fields c3fields (.ok 0) 31).2.writes.length ≤ 31 := by
  decide

/-- C4: ble_hs_adv_set_hdr fails with BLE_HS_EMSGSIZE exactly when
cursor + 2 + payload_len exceeds max_len (storing nothing on failure: the
error result carries no writes), and on success appends the length byte
payload_len + 1 followed by the type byte and advances the cursor by 2. -/
theorem c4_set_hdr_spec (t d max : Nat) (s : WState) (ht : t < 256)
    (hd : d < 256) (hmax : max < 256) :
    (max < s.dst_len + 2 + d →
      ble_hs_adv_set_hdr t d max s = .error BLE_HS_EMSGSIZE) ∧
    (s.dst_len + 2 + d ≤ max →
      ble_hs_adv_set_hdr t d max s =
        .ok ⟨s.writes ++ [(s.dst_len, d + 1), (s.dst_len + 1, t)],
             s.dst_len + 2, s.assertFailed⟩) := by
  constructor
  · intro h
    unfold ble_hs_adv_set_hdr
    rw [if_pos (by omega)]
  · intro h
    unfold ble_hs_adv_set_hdr
    rw [if_neg (by omega)]
    rw [Nat.mod_eq_of_lt (a := d + 1) (by omega),
        Nat.mod_eq_of_lt (a := t) (by omega),
        Nat.mod_eq_of_lt (a := s.dst_len + 2) (by omega)]

/-- Witness for c4_set_hdr_spec at type 9, payload 3, max_len 31 (success
case) and payload 30 (failure case). -/
theorem c4_set_hdr_spec_witness :
    ble_hs_adv_set_hdr 9 3 31 ⟨[], 0, false⟩
      = .ok ⟨[] ++ [(0, 3 + 1), (0 + 1, 9)], 0 + 2, false⟩ ∧
    ble_hs_adv_set_hdr 9 30 31 ⟨[], 0, false⟩ = .error BLE_HS_EMSGSIZE :=
  ⟨(c4_set_hdr_spec 9 3 31 ⟨[], 0, false⟩ (by decide) (by decide)
      (by decide)).2 (by decide),
   (c4_set_hdr_spec 9 30 31 ⟨[], 0, false⟩ (by decide) (by decide)
      (by decide)).1 (by decide)⟩

/-- C5 (amended): a first record whose length byte is at most 254 and
implies more bytes than remain makes ble_hs_adv_parse_fields fail with
BLE_HS_EMSGSIZE; and the one-record parser fails with BLE_HS_EMSGSIZE when
invoked with zero remaining bytes (the outer loop itself never does so,
since it only runs while unconsumed bytes remain).  For a length byte of
255 the uint8_t total length wraps to 0 and the record is instead rejected
with BLE_HS_EBADDATA (see the counterexample). -/
theorem c5_short_record_rejected :
    (∀ (src : Nat → Nat) (src_len : Nat), 1 ≤ src_len →
      byteAt src 0 ≤ 254 → src_len < byteAt src 0 + 1 →
      ble_hs_adv_parse_fields src src_len = .error BLE_HS_EMSGSIZE) ∧
    (∀ (f : ble_hs_adv_fields) (src : Nat → Nat),
      ble_hs_adv_parse_one_field f src 0 = .error BLE_HS_EMSGSIZE) := by
  constructor
  · intro src src_len h1 h2 h3
    have hone : ble_hs_adv_parse_one_field {} src src_len
        = .error BLE_HS_EMSGSIZE := by
      simp only [ble_hs_adv_parse_one_field]
      rw [if_neg (show ¬ src_len < 1 by omega)]
      rw [Nat.mod_eq_of_lt (show byteAt src 0 + 1 < 256 by omega)]
      rw [if_pos h3]
    exact parse_fields_error src src_len _ (by omega) hone
  · intro f src
    simp [ble_hs_adv_parse_one_field]

/-- C5 counterexample: the source consisting of the single byte 255 has a
length byte implying a 256-byte record where only 1 byte remains, yet the
parser rejects it with BLE_HS_EBADDATA, not the claimed BLE_HS_EMSGSIZE:
total_len = src[0] + 1 wraps to 0 in uint8_t, the size comparison passes,
and the wrapped data_len of 254 fails the maximum-field-size check. -/
theorem c5_counterexample :
    1 < byteAt (fun _ => 255) 0 + 1 ∧
    ble_hs_adv_parse_fields (fun _ => 255) 1 = .error BLE_HS_EBADDATA ∧
    BLE_HS_EBADDATA ≠ BLE_HS_EMSGSIZE := by
  refine ⟨by decide, ?_, by decide⟩
  exact parse_fields_error _ 1 _ (by decide) (by decide)

/-- Witness for c5_short_record_rejected: a single length byte 5 with one
remaining byte, and the one-record parser on an empty rest. -/
theorem c5_short_record_rejected_witness :
    ble_hs_adv_parse_fields (fun _ => 5) 1 = .error BLE_HS_EMSGSIZE ∧
    ble_hs_adv_parse_one_field {} (fun _ => 0) 0 = .error BLE_HS_EMSGSIZE :=
  ⟨c5_short_record_rejected.1 (fun _ => 5) 1 (by decide) (by decide)
      (by decide),
   c5_short_record_rejected.2 {} (fun _ => 0)⟩

/-- C6 (amended): a record with an unrecognized type code, a length
consistent with the remaining source, and a payload length within
BLE_HS_ADV_MAX_FIELD_SZ is accepted without error, leaves every output
field untouched, and the loop continues at the next record.  Payloads
larger than BLE_HS_ADV_MAX_FIELD_SZ are rejected with BLE_HS_EBADDATA
before the type dispatch, regardless of the type code (see the
counterexample), so the claimed independence from the payload length fails. -/
theorem c6_unknown_type_skipped (f : ble_hs_adv_fields) (src : Nat → Nat)
    (src_len : Nat)
    (hlen : (byteAt src 0 + 1) % 256 ≤ src_len)
    (hfield : ((byteAt src 0 + 1) % 256 + 254) % 256 ≤ BLE_HS_ADV_MAX_FIELD_SZ)
    (hunk : byteAt src 1 ∉ knownAdTypes) :
    ble_hs_adv_parse_one_field f src src_len
      = .ok (f, (byteAt src 0 + 1) % 256) ∧
    ble_hs_adv_parse_fields_go f src src_len
      = ble_hs_adv_parse_fields_go f
          (fun i => src (i + (byteAt src 0 + 1) % 256))
          (src_len - (byteAt src 0 + 1) % 256) := by
  have hmax : ((byteAt src 0 + 1) % 256 + 254) % 256 ≤ 29 := by
    simpa [BLE_HS_ADV_MAX_FIELD_SZ, BLE_HS_ADV_MAX_SZ] using hfield
  have ht2 : 2 ≤ (byteAt src 0 + 1) % 256 := by omega
  simp only [knownAdTypes, List.mem_cons, List.not_mem_nil, not_or] at hunk
  obtain ⟨q1, q2, q3, q4, q5, q6, q7, q8, q9, q10, q11, q12, q13, q14, q15,
    q16, q17, q18, q19, q20, q21, q22, -⟩ := hunk
  have hbody : ble_hs_adv_parse_one_field_body f (byteAt src 1)
      (fun i => src (2 + i)) (((byteAt src 0 + 1) % 256 + 254) % 256)
      = .ok f := by
    simp only [ble_hs_adv_parse_one_field_body]
    rw [if_neg q1, if_neg q2, if_neg q3, if_neg q4, if_neg q5, if_neg q6,
        if_neg q7, if_neg q8, if_neg q9, if_neg q10, if_neg q11, if_neg q12,
        if_neg q13, if_neg q14, if_neg q15, if_neg q16, if_neg q17,
        if_neg q18, if_neg q19, if_neg q20, if_neg q21, if_neg q22]
  have hone : ble_hs_adv_parse_one_field f src src_len
      = .ok (f, (byteAt src 0 + 1) % 256) := by
    simp only [ble_hs_adv_parse_one_field]
    rw [if_neg (show ¬ src_len < 1 by omega)]
    rw [if_neg (show ¬ src_len < (byteAt src 0 + 1) % 256 by omega)]
    rw [if_neg (show ¬ ((byteAt src 0 + 1) % 256 + 254) % 256
        > BLE_HS_ADV_MAX_FIELD_SZ by
      simp only [BLE_HS_ADV_MAX_FIELD_SZ, BLE_HS_ADV_MAX_SZ]; omega)]
    rw [hbody]
  refine ⟨hone, ?_⟩
  rw [parse_fields_go_succ f src src_len (by omega), hone]

/-- C6 counterexample: a single self-consistent record of 41 bytes —
length byte 40, unrecognized type 0xf0 — is rejected with BLE_HS_EBADDATA
because its 39-byte payload exceeds BLE_HS_ADV_MAX_FIELD_SZ, contradicting
the claim that such records are skipped regardless of payload length. -/
theorem c6_counterexample :
    byteAt c6big 0 + 1 = 41 ∧
    byteAt c6big 1 ∉ knownAdTypes ∧
    ble_hs_adv_parse_fields c6big 41 = .error BLE_HS_EBADDATA := by
  refine ⟨by decide, by decide, ?_⟩
  exact parse_fields_error _ 41 _ (by decide) (by decide)

/-- Witness for c6_unknown_type_skipped: a 4-byte record of type 0xf0
followed by a flags record, in a 7-byte source. -/
theorem c6_unknown_type_skipped_witness :
    ble_hs_adv_parse_one_field {} c6src 7 = .ok ({}, 4) ∧
    ble_hs_adv_parse_fields_go {} c6src 7
      = ble_hs_adv_parse_fields_go {} (fun i => c6src (i + 4)) 3 :=
  c6_unknown_type_skipped {} c6src 7 (by decide) (by decide) (by decide)

/-- C7: with a source of src_len = 1 whose single byte (the length byte)
is 0, ble_hs_adv_parse_one_field reads index 1 — one past the supplied
bytes — because total_len = 1 passes the src_len < total_len check and the
type byte is fetched before any further validation; the record is then
rejected with BLE_HS_EBADDATA, but the out-of-bounds read has happened,
contradicting the claim that only indices below src_len are accessed. -/
theorem c7_type_byte_read_past_end :
    ble_hs_adv_parse_one_field_reads (fun _ => 0) 1 = [0, 1] ∧
    ¬ (1 : Nat) < 1 ∧
    ble_hs_adv_parse_fields (fun _ => 0) 1 = .error BLE_HS_EBADDATA := by
  refine ⟨by decide, by decide, ?_⟩
  exact parse_fields_error _ 1 _ (by decide) (by decide)

/-- C8: a field set whose svc_data_uuid16 pointer is non-null with length
0 drives ble_hs_adv_set_fields to call ble_hs_adv_set_flat with
data_len = 0, violating the writer's BLE_HS_DBG_ASSERT(data_len > 0):
the call succeeds and emits a record with an empty value (header bytes
01 16 only), contradicting the claim that every invocation satisfies the
precondition. -/
theorem c8_zero_length_svc_data_asserts :
    (ble_hs_adv_set_fields c8fields (.ok 0) 31).2.assertFailed = true ∧
    (ble_hs_adv_set_fields c8fields (.ok 0) 31).1 = 0 ∧
    (ble_hs_adv_set_fields c8fields (.ok 0) 31).2.writes
      = [(0, 1), (1, BLE_HS_ADV_TYPE_SVC_DATA_UUID16)] := by
  decide

/-- C9: serializing flags 0x06 with complete name Foo into max_len 31
succeeds, storing exactly the 8 bytes 02 01 06 04 09 46 6f 6f at indices
0 through 7, with final dst_len 8. -/
theorem c9_concrete_serialization :
    ble_hs_adv_set_fields c9fields (.ok 0) 31
      = (0, ⟨[(0, 0x02), (1, 0x01), (2, 0x06), (3, 0x04), (4, 0x09),
              (5, 0x46), (6, 0x6f), (7, 0x6f)], 8, false⟩) ∧
    (List.range 8).map
        (applyWrites (ble_hs_adv_set_fields c9fields (.ok 0) 31).2.writes)
      = [0x02, 0x01, 0x06, 0x04, 0x09, 0x46, 0x6f, 0x6f] := by
  decide

/-- C10: each successful ble_hs_adv_parse_one_field call consumes at least
one byte (in fact at least two) and never more than remain, so the
unconsumed length of the ble_hs_adv_parse_fields loop strictly decreases —
the loop terminates (the recursion of ble_hs_adv_parse_fields_go is
well-founded on src_len by this very fact). -/
theorem c10_parse_progress (f : ble_hs_adv_fields) (src : Nat → Nat)
    (src_len : Nat) (f1 : ble_hs_adv_fields) (n : Nat)
    (hp : ble_hs_adv_parse_one_field f src src_len = .ok (f1, n)) :
    1 ≤ n ∧ n ≤ src_len ∧ src_len - n < src_len := by
  simp only [ble_hs_adv_parse_one_field] at hp
  split at hp
  · cases hp
  · split at hp
    · cases hp
    · split at hp
      · cases hp
      · split at hp
        · cases hp
        · rename_i h1 h2 h3 _
          injection hp with hp1
          injection hp1 with _ hlen
          simp only [BLE_HS_ADV_MAX_FIELD_SZ, BLE_HS_ADV_MAX_SZ] at *
          omega

/-- Witness for c10_parse_progress: the 3-byte flags record 02 01 06. -/
theorem c10_parse_progress_witness :
    1 ≤ 3 ∧ 3 ≤ 3 ∧ 3 - 3 < 3 :=
  c10_parse_progress {} (fun i => [2, 1, 6].getD i 0) 3
    { flags := 6, flags_is_present := true } 3 (by decide)

/-- Bind of a success, for stepping through the writer chain. -/
theorem except_bind_ok {ε α β : Type} (a : α) (k : α → Except ε β) :
    (Except.ok a : Except ε α) >>= k = k a := rfl

/-- Bind of a failure short-circuits the writer chain. -/
theorem except_bind_error {ε α β : Type} (e : ε) (k : α → Except ε β) :
    (Except.error e : Except ε α) >>= k = .error e := rfl

theorem finishRc_ok (s : WState) : finishRc (.ok s) = (0, s) := rfl

theorem finishRc_error (p : Nat × WState) : finishRc (.error p) = p := rfl

/-- A successful ble_hs_adv_set_flat with an untruncated size appends
exactly 2 + data_len write-log entries, keeps the log length equal to the
cursor, and lands the cursor at most at max_len. -/
theorem set_flat_ok_spec {t d : Nat} {data : List Nat} {max_len : Nat}
    {s s1 : WState}
    (h : ble_hs_adv_set_flat t d data max_len s = .ok s1)
    (hd : d < 256) (hmax : max_len < 256)
    (hlen : s.writes.length = s.dst_len) :
    s1.writes.length = s1.dst_len ∧ s1.dst_len = s.dst_len + (2 + d) ∧
    s1.dst_len ≤ max_len := by
  simp only [ble_hs_adv_set_flat, ble_hs_adv_set_hdr] at h
  split at h
  · simp at h
  · rename_i sx heq
    have h2 := Except.ok.inj h
    subst h2
    split at heq
    · simp at heq
    · rename_i hg
      have h3 := Except.ok.inj heq
      subst h3
      refine ⟨?_, ?_, ?_⟩ <;>
        simp only [List.length_append, memWrites, readBytes, List.length_map,
          List.enum_length, List.length_range, List.length_cons,
          List.length_nil] <;>
        omega

/-- A failing ble_hs_adv_set_flat means the record did not fit. -/
theorem set_flat_error_spec {t d : Nat} {data : List Nat} {max_len : Nat}
    {s : WState} {rc : Nat}
    (h : ble_hs_adv_set_flat t d data max_len s = .error rc)
    (hd : d < 256) :
    max_len < s.dst_len + (2 + d) := by
  simp only [ble_hs_adv_set_flat, ble_hs_adv_set_hdr] at h
  split at h
  · rename_i rcx heq
    split at heq
    · rename_i hg
      omega
    · simp at heq
  · simp at h

/-- The 16-bit element loop appends 2 log entries per element and advances
the cursor by 2 per element (no uint8_t wrap when the end stays below
256). -/
theorem writeArray16_spec (l : List Nat) (s : WState)
    (hbound : s.dst_len + 2 * l.length ≤ 255) :
    (writeArray16 l s).writes.length = s.writes.length + 2 * l.length ∧
    (writeArray16 l s).dst_len = s.dst_len + 2 * l.length ∧
    (writeArray16 l s).assertFailed = s.assertFailed := by
  induction l generalizing s with
  | nil => simp [writeArray16]
  | cons v rest ih =>
      simp only [List.length_cons] at hbound
      have hlt : s.dst_len + 2 < 256 := by omega
      have hb2 : (({ s with
          writes := s.writes ++ memWrites s.dst_len (le16Bytes v),
          dst_len := (s.dst_len + 2) % 256 } : WState)).dst_len
          + 2 * rest.length ≤ 255 := by
        simp only []
        omega
      obtain ⟨h1, h2, h3⟩ := ih _ hb2
      simp only [writeArray16]
      refine ⟨?_, ?_, ?_⟩
      · rw [h1]
        simp only [List.length_append, memWrites, le16Bytes, List.length_map,
          List.enum_length, List.length_cons, List.length_nil]
        omega
      · rw [h2]
        simp only [List.length_cons]
        omega
      · rw [h3]

/-- The 32-bit element loop appends 4 log entries per element. -/
theorem writeArray32_spec (l : List Nat) (s : WState)
    (hbound : s.dst_len + 4 * l.length ≤ 255) :
    (writeArray32 l s).writes.length = s.writes.length + 4 * l.length ∧
    (writeArray32 l s).dst_len = s.dst_len + 4 * l.length ∧
    (writeArray32 l s).assertFailed = s.assertFailed := by
  induction l generalizing s with
  | nil => simp [writeArray32]
  | cons v rest ih =>
      simp only [List.length_cons] at hbound
      have hlt : s.dst_len + 4 < 256 := by omega
      have hb2 : (({ s with
          writes := s.writes ++ memWrites s.dst_len (le32Bytes v),
          dst_len := (s.dst_len + 4) % 256 } : WState)).dst_len
          + 4 * rest.length ≤ 255 := by
        simp only []
        omega
      obtain ⟨h1, h2, h3⟩ := ih _ hb2
      simp only [writeArray32]
      refine ⟨?_, ?_, ?_⟩
      · rw [h1]
        simp only [List.length_append, memWrites, le32Bytes, List.length_map,
          List.enum_length, List.length_cons, List.length_nil]
        omega
      · rw [h2]
        simp only [List.length_cons]
        omega
      · rw [h3]

/-- A successful ble_hs_adv_set_array16 with an untruncated size behaves
like a flat write of num_elems * 2 payload bytes. -/
theorem set_array16_ok_spec {t num : Nat} {elems : List Nat}
    {max_len : Nat} {s s1 : WState}
    (h : ble_hs_adv_set_array16 t num elems max_len s = .ok s1)
    (hn : num * 2 < 256) (hmax : max_len < 256)
    (hlen : s.writes.length = s.dst_len) :
    s1.writes.length = s1.dst_len ∧ s1.dst_len = s.dst_len + (2 + num * 2) ∧
    s1.dst_len ≤ max_len := by
  simp only [ble_hs_adv_set_array16, ble_hs_adv_set_hdr] at h
  split at h
  · simp at h
  · rename_i sx heq
    have h2 := Except.ok.inj h
    split at heq
    · simp at heq
    · rename_i hg
      have h3 := Except.ok.inj heq
      have hx1 : sx.writes.length = s.writes.length + 2 := by
        rw [← h3]
        simp only [List.length_append, List.length_cons, List.length_nil]
      have hx2 : sx.dst_len = (s.dst_len + 2) % 256 := by
        rw [← h3]
      have hx3 : sx.dst_len
          + 2 * ((List.range num).map (elems.getD · 0)).length ≤ 255 := by
        simp only [hx2, List.length_map, List.length_range]
        omega
      obtain ⟨hw1, hw2, hw3⟩ := writeArray16_spec _ sx hx3
      rw [h2] at hw1 hw2

      simp only [List.length_map, List.length_range] at hw1 hw2
      refine ⟨by omega, by omega, by omega⟩

/-- A failing ble_hs_adv_set_array16 means the record did not fit. -/
theorem set_array16_error_spec {t num : Nat} {elems : List Nat}
    {max_len : Nat} {s : WState} {rc : Nat}
    (h : ble_hs_adv_set_array16 t num elems max_len s = .error rc)
    (hn : num * 2 < 256) :
    max_len < s.dst_len + (2 + num * 2) := by
  simp only [ble_hs_adv_set_array16, ble_hs_adv_set_hdr] at h
  split at h
  · rename_i rcx heq
    split at heq
    · rename_i hg
      omega
    · simp at heq
  · simp at h

/-- A successful ble_hs_adv_set_array32 with an untruncated size behaves
like a flat write of num_elems * 4 payload bytes. -/
theorem set_array32_ok_spec {t num : Nat} {elems : List Nat}
    {max_len : Nat} {s s1 : WState}
    (h : ble_hs_adv_set_array32 t num elems max_len s = .ok s1)
    (hn : num * 4 < 256) (hmax : max_len < 256)
    (hlen : s.writes.length = s.dst_len) :
    s1.writes.length = s1.dst_len ∧ s1.dst_len = s.dst_len + (2 + num * 4) ∧
    s1.dst_len ≤ max_len := by
  simp only [ble_hs_adv_set_array32, ble_hs_adv_set_hdr] at h
  split at h
  · simp at h
  · rename_i sx heq
    have h2 := Except.ok.inj h
    split at heq
    · simp at heq
    · rename_i hg
      have h3 := Except.ok.inj heq
      have hx1 : sx.writes.length = s.writes.length + 2 := by
        rw [← h3]
        simp only [List.length_append, List.length_cons, List.length_nil]
      have hx2 : sx.dst_len = (s.dst_len + 2) % 256 := by
        rw [← h3]
      have hx3 : sx.dst_len
          + 4 * ((List.range num).map (elems.getD · 0)).length ≤ 255 := by
        simp only [hx2, List.length_map, List.length_range]
        omega
      obtain ⟨hw1, hw2, hw3⟩ := writeArray32_spec _ sx hx3
      rw [h2] at hw1 hw2
      simp only [List.length_map, List.length_range] at hw1 hw2
      refine ⟨by omega, by omega, by omega⟩

/-- A failing ble_hs_adv_set_array32 means the record did not fit. -/
theorem set_array32_error_spec {t num : Nat} {elems : List Nat}
    {max_len : Nat} {s : WState} {rc : Nat}
    (h : ble_hs_adv_set_array32 t num elems max_len s = .error rc)
    (hn : num * 4 < 256) :
    max_len < s.dst_len + (2 + num * 4) := by
  simp only [ble_hs_adv_set_array32, ble_hs_adv_set_hdr] at h
  split at h
  · rename_i rcx heq
    split at heq
    · rename_i hg
      omega
    · simp at heq
  · simp at h

/-- A successful runStep either ran its writer (field present) or passed
the state through (field absent). -/
theorem runStep_ok_split {c : Bool} {w : WState → Except Nat WState}
    {s s1 : WState} (h : runStep c w s = .ok s1) :
    (c = true ∧ w s = .ok s1) ∨ (c = false ∧ s1 = s) := by
  cases c with
  | false =>
      right
      simp only [runStep, Bool.false_eq_true, if_false] at h
      exact ⟨rfl, (Except.ok.inj h).symm⟩
  | true =>
      left
      refine ⟨rfl, ?_⟩
      simp only [runStep, if_true] at h
      split at h
      · rename_i sx heq
        have h2 := Except.ok.inj h
        subst h2
        exact heq
      · simp at h

/-- A failing runStep ran its writer on a present field and returns the
writer's rc paired with the untouched state. -/
theorem runStep_error_split {c : Bool} {w : WState → Except Nat WState}
    {s : WState} {p : Nat × WState} (h : runStep c w s = .error p) :
    c = true ∧ p.2 = s ∧ w s = .error p.1 := by
  cases c with
  | false =>
      simp [runStep] at h
  | true =>
      simp only [runStep, if_true] at h
      split at h
      · simp at h
      · rename_i rcx heq
        have h2 := Except.error.inj h
        subst h2
        exact ⟨rfl, rfl, heq⟩

/-- Chaining preserves the state invariant. -/
theorem resok_bind {max_len : Nat} {r : Except (Nat × WState) WState}
    {k : WState → Except (Nat × WState) WState}
    (h1 : ResOk max_len r)
    (h2 : ∀ s, StateOk max_len s → ResOk max_len (k s)) :
    ResOk max_len (r >>= k) := by
  cases r with
  | ok s => exact h2 s h1
  | error p => exact h1

/-- A runStep whose writer preserves the invariant preserves it in both
outcomes (its error outcome carries the untouched input state). -/
theorem resok_runStep {max_len : Nat} (c : Bool)
    (w : WState → Except Nat WState) (s : WState)
    (hs : StateOk max_len s)
    (hw : ∀ s1, w s = .ok s1 → StateOk max_len s1) :
    ResOk max_len (runStep c w s) := by
  cases hE : runStep c w s with
  | ok s1 =>
      rcases runStep_ok_split hE with ⟨-, hws⟩ | ⟨-, hseq⟩
      · exact hw s1 hws
      · subst hseq
        exact hs
  | error p =>
      obtain ⟨-, hp2, -⟩ := runStep_error_split hE
      show StateOk max_len p.2
      rw [hp2]
      exact hs

/-- The invariant on the chain outcome carries to the returned pair. -/
theorem resok_finish {max_len : Nat} {r : Except (Nat × WState) WState}
    (h : ResOk max_len r) : StateOk max_len (finishRc r).2 := by
  cases r with
  | ok s => exact h
  | error p => exact h

/-- The flags step of ble_hs_adv_set_fields: its rc is discarded, so the
resulting state either reflects a failed, skipped write (cursor still 0 —
possible only when even 3 bytes do not fit) or accounts for the field
exactly when present. -/
theorem flags_step_spec (t : Nat) (data : List Nat) (max_len : Nat)
    (c : Bool) (hmax : max_len < 256) :
    ∃ s1, (if c then
        ignoreRc (ble_hs_adv_set_flat t 1 data max_len ⟨[], 0, false⟩)
          ⟨[], 0, false⟩
      else ⟨[], 0, false⟩) = s1 ∧
      s1.writes.length = s1.dst_len ∧ s1.dst_len ≤ max_len ∧
      ((c = true ∧ max_len < 3 ∧ s1.dst_len = 0) ∨
        s1.dst_len = (if c then 2 + 1 else 0)) := by
  cases c with
  | false => exact ⟨⟨[], 0, false⟩, rfl, rfl, Nat.zero_le _, Or.inr (by decide)⟩
  | true =>
      cases hE : ble_hs_adv_set_flat t 1 data max_len ⟨[], 0, false⟩ with
      | error rc =>
          have hgt := set_flat_error_spec hE (by omega)
          refine ⟨⟨[], 0, false⟩, by simp [ignoreRc, hE], rfl, Nat.zero_le _,
            Or.inl ⟨rfl, by simpa using hgt, rfl⟩⟩
      | ok s1 =>
          obtain ⟨h1, h2, h3⟩ := set_flat_ok_spec hE (by omega) hmax rfl
          exact ⟨s1, by simp [ignoreRc, hE], h1, h3, Or.inr (by simpa using h2)⟩

/-- A successful tx-power step behaves like a 1-byte flat write. -/
theorem txWriter_ok_spec {txq : Except Nat Int} {lvl : Int} {max_len : Nat}
    {s s1 : WState} (h : txPwrWriter txq lvl max_len s = .ok s1)
    (hmax : max_len < 256) (hlen : s.writes.length = s.dst_len) :
    s1.writes.length = s1.dst_len ∧ s1.dst_len = s.dst_len + (2 + 1) ∧
    s1.dst_len ≤ max_len := by
  simp only [txPwrWriter] at h
  split at h
  · simp at h
  · exact set_flat_ok_spec h (by omega) hmax hlen

/-- A failing tx-power step means either the collaborator was queried for
the auto sentinel (and failed), or the 3-byte record did not fit. -/
theorem txWriter_error_spec {txq : Except Nat Int} {lvl : Int}
    {max_len : Nat} {s : WState} {rc : Nat}
    (h : txPwrWriter txq lvl max_len s = .error rc) :
    lvl = BLE_HS_ADV_TX_PWR_LVL_AUTO ∨ max_len < s.dst_len + (2 + 1) := by
  simp only [txPwrWriter] at h
  split at h
  · rename_i rcx heq
    left
    split at heq
    · rename_i hbeq
      exact eq_of_beq hbeq
    · simp at heq
  · right
    exact set_flat_error_spec h (by omega)

/-- With just enough room for this one field, a flat-writer step succeeds
and advances the cursor by the field's encoded size (0 when absent). -/
theorem runStep_flat_succ (c : Bool) (t d : Nat) (data : List Nat)
    (max_len : Nat) (s : WState) (hd : d < 256) (hmax : max_len < 256)
    (hs : s.writes.length = s.dst_len)
    (hroom : s.dst_len + (if c then 2 + d else 0) ≤ max_len) :
    ∃ s1, runStep c (ble_hs_adv_set_flat t d data max_len) s = .ok s1 ∧
      s1.writes.length = s1.dst_len ∧
      s1.dst_len = s.dst_len + (if c then 2 + d else 0) := by
  cases c with
  | false => exact ⟨s, by simp [runStep], hs, by simp⟩
  | true =>
      simp only [if_true] at hroom ⊢
      cases hE : ble_hs_adv_set_flat t d data max_len s with
      | error rc => exact absurd (set_flat_error_spec hE hd) (by omega)
      | ok s1 =>
          obtain ⟨h1, h2, h3⟩ := set_flat_ok_spec hE hd hmax hs
          exact ⟨s1, by simp [runStep, hE], h1, h2⟩

/-- With just enough room, a 16-bit-array step succeeds. -/
theorem runStep_array16_succ (c : Bool) (t num : Nat) (elems : List Nat)
    (max_len : Nat) (s : WState) (hn : num * 2 < 256) (hmax : max_len < 256)
    (hs : s.writes.length = s.dst_len)
    (hroom : s.dst_len + (if c then 2 + num * 2 else 0) ≤ max_len) :
    ∃ s1, runStep c (ble_hs_adv_set_array16 t num elems max_len) s = .ok s1 ∧
      s1.writes.length = s1.dst_len ∧
      s1.dst_len = s.dst_len + (if c then 2 + num * 2 else 0) := by
  cases c with
  | false => exact ⟨s, by simp [runStep], hs, by simp⟩
  | true =>
      simp only [if_true] at hroom ⊢
      cases hE : ble_hs_adv_set_array16 t num elems max_len s with
      | error rc => exact absurd (set_array16_error_spec hE hn) (by omega)
      | ok s1 =>
          obtain ⟨h1, h2, h3⟩ := set_array16_ok_spec hE hn hmax hs
          exact ⟨s1, by simp [runStep, hE], h1, h2⟩

/-- With just enough room, a 32-bit-array step succeeds. -/
theorem runStep_array32_succ (c : Bool) (t num : Nat) (elems : List Nat)
    (max_len : Nat) (s : WState) (hn : num * 4 < 256) (hmax : max_len < 256)
    (hs : s.writes.length = s.dst_len)
    (hroom : s.dst_len + (if c then 2 + num * 4 else 0) ≤ max_len) :
    ∃ s1, runStep c (ble_hs_adv_set_array32 t num elems max_len) s = .ok s1 ∧
      s1.writes.length = s1.dst_len ∧
      s1.dst_len = s.dst_len + (if c then 2 + num * 4 else 0) := by
  cases c with
  | false => exact ⟨s, by simp [runStep], hs, by simp⟩
  | true =>
      simp only [if_true] at hroom ⊢
      cases hE : ble_hs_adv_set_array32 t num elems max_len s with
      | error rc => exact absurd (set_array32_error_spec hE hn) (by omega)
      | ok s1 =>
          obtain ⟨h1, h2, h3⟩ := set_array32_ok_spec hE hn hmax hs
          exact ⟨s1, by simp [runStep, hE], h1, h2⟩

/-- With just enough room and no auto sentinel, the tx-power step
succeeds. -/
theorem runStep_tx_succ (c : Bool) (txq : Except Nat Int) (lvl : Int)
    (max_len : Nat) (s : WState) (hmax : max_len < 256)
    (hs : s.writes.length = s.dst_len)
    (hroom : s.dst_len + (if c then 2 + 1 else 0) ≤ max_len)
    (hna : c = true → lvl ≠ BLE_HS_ADV_TX_PWR_LVL_AUTO) :
    ∃ s1, runStep c (txPwrWriter txq lvl max_len) s = .ok s1 ∧
      s1.writes.length = s1.dst_len ∧
      s1.dst_len = s.dst_len + (if c then 2 + 1 else 0) := by
  cases c with
  | false => exact ⟨s, by simp [runStep], hs, by simp⟩
  | true =>
      simp only [if_true] at hroom ⊢
      cases hE : txPwrWriter txq lvl max_len s with
      | error rc =>
          rcases txWriter_error_spec hE with hauto | hgt
          · exact absurd hauto (hna rfl)
          · exact absurd hgt (by omega)
      | ok s1 =>
          obtain ⟨h1, h2, h3⟩ := txWriter_ok_spec hE hmax hs
          exact ⟨s1, by simp [runStep, hE], h1, h2⟩

/-- Part one of the size invariant: whatever ble_hs_adv_set_fields
returns, the number of bytes stored equals the final cursor and stays
within max_len — provided no per-field payload size overflowed the
uint8_t header arithmetic (sizesFit). -/
theorem set_fields_bounded (f : ble_hs_adv_fields) (txq : Except Nat Int)
    (max_len : Nat) (hmax : max_len < 256) (hfit : sizesFit f) :
    StateOk max_len (ble_hs_adv_set_fields f txq max_len).2 := by
  obtain ⟨hf16, hf32, hf128, hfname, hfs16, hfptgt, hfs32, hfs128, hfuri,
    hfmfg⟩ := hfit
  simp only [ble_hs_adv_set_fields]
  obtain ⟨sf, hfeq, hflen, hfb, -⟩ :=
    flags_step_spec BLE_HS_ADV_TYPE_FLAGS [f.flags % 256] max_len
      (f.flags_is_present && f.flags != 0) hmax
  rw [hfeq]
  apply resok_finish
  refine resok_bind (resok_runStep _ _ _ ⟨hflen, hfb⟩ ?_) ?_
  · intro s1 h1
    obtain ⟨a1, b1, c1⟩ := set_array16_ok_spec h1 hf16 hmax hflen
    exact ⟨a1, c1⟩
  · intro s2 hs2
    refine resok_bind (resok_runStep _ _ _ hs2 ?_) ?_
    · intro s1 h1
      obtain ⟨a1, b1, c1⟩ := set_array32_ok_spec h1 hf32 hmax hs2.1
      exact ⟨a1, c1⟩
    · intro s3 hs3
      refine resok_bind (resok_runStep _ _ _ hs3 ?_) ?_
      · intro s1 h1
        obtain ⟨a1, b1, c1⟩ := set_flat_ok_spec h1 hf128 hmax hs3.1
        exact ⟨a1, c1⟩
      · intro s4 hs4
        refine resok_bind (resok_runStep _ _ _ hs4 ?_) ?_
        · intro s1 h1
          obtain ⟨a1, b1, c1⟩ := set_flat_ok_spec h1 hfname hmax hs4.1
          exact ⟨a1, c1⟩
        · intro s5 hs5
          refine resok_bind (resok_runStep _ _ _ hs5 ?_) ?_
          · intro s1 h1
            obtain ⟨a1, b1, c1⟩ := txWriter_ok_spec h1 hmax hs5.1
            exact ⟨a1, c1⟩
          · intro s6 hs6
            refine resok_bind (resok_runStep _ _ _ hs6 ?_) ?_
            · intro s1 h1
              obtain ⟨a1, b1, c1⟩ := set_flat_ok_spec h1 (by decide) hmax hs6.1
              exact ⟨a1, c1⟩
            · intro s7 hs7
              refine resok_bind (resok_runStep _ _ _ hs7 ?_) ?_
              · intro s1 h1
                obtain ⟨a1, b1, c1⟩ := set_flat_ok_spec h1 (by decide) hmax hs7.1
                exact ⟨a1, c1⟩
              · intro s8 hs8
                refine resok_bind (resok_runStep _ _ _ hs8 ?_) ?_
                · intro s1 h1
                  obtain ⟨a1, b1, c1⟩ := set_flat_ok_spec h1 hfs16 hmax hs8.1
                  exact ⟨a1, c1⟩
                · intro s9 hs9
                  refine resok_bind (resok_runStep _ _ _ hs9 ?_) ?_
                  · intro s1 h1
                    obtain ⟨a1, b1, c1⟩ := set_flat_ok_spec h1 hfptgt hmax hs9.1
                    exact ⟨a1, c1⟩
                  · intro s10 hs10
                    refine resok_bind (resok_runStep _ _ _ hs10 ?_) ?_
                    · intro s1 h1
                      obtain ⟨a1, b1, c1⟩ := set_flat_ok_spec h1 (by decide) hmax hs10.1
                      exact ⟨a1, c1⟩
                    · intro s11 hs11
                      refine resok_bind (resok_runStep _ _ _ hs11 ?_) ?_
                      · intro s1 h1
                        obtain ⟨a1, b1, c1⟩ := set_array16_ok_spec h1 (by decide) hmax hs11.1
                        exact ⟨a1, c1⟩
                      · intro s12 hs12
                        refine resok_bind (resok_runStep _ _ _ hs12 ?_) ?_
                        · intro s1 h1
                          obtain ⟨a1, b1, c1⟩ := set_flat_ok_spec h1 (by decide) hmax hs12.1
                          exact ⟨a1, c1⟩
                        · intro s13 hs13
                          refine resok_bind (resok_runStep _ _ _ hs13 ?_) ?_
                          · intro s1 h1
                            obtain ⟨a1, b1, c1⟩ := set_flat_ok_spec h1 (by decide) hmax hs13.1
                            exact ⟨a1, c1⟩
                          · intro s14 hs14
                            refine resok_bind (resok_runStep _ _ _ hs14 ?_) ?_
                            · intro s1 h1
                              obtain ⟨a1, b1, c1⟩ := set_flat_ok_spec h1 hfs32 hmax hs14.1
                              exact ⟨a1, c1⟩
                            · intro s15 hs15
                              refine resok_bind (resok_runStep _ _ _ hs15 ?_) ?_
                              · intro s1 h1
                                obtain ⟨a1, b1, c1⟩ := set_flat_ok_spec h1 hfs128 hmax hs15.1
                                exact ⟨a1, c1⟩
                              · intro s16 hs16
                                refine resok_bind (resok_runStep _ _ _ hs16 ?_) ?_
                                · intro s1 h1
                                  obtain ⟨a1, b1, c1⟩ := set_flat_ok_spec h1 hfuri hmax hs16.1
                                  exact ⟨a1, c1⟩
                                · intro s17 hs17
                                  refine resok_bind (resok_runStep _ _ _ hs17 ?_) ?_
                                  · intro s1 h1
                                    obtain ⟨a1, b1, c1⟩ := set_flat_ok_spec h1 hfmfg hmax hs17.1
                                    exact ⟨a1, c1⟩
                                  · intro s18 hs18
                                    exact hs18

/-- Part two of the size invariant: a field set whose sizes fit the byte
arithmetic, whose tx-power is not the auto sentinel when present, and
whose total encoded size fits max_len is serialized completely, with
rc 0. -/
theorem set_fields_rc0 (f : ble_hs_adv_fields) (txq : Except Nat Int)
    (max_len : Nat) (hmax : max_len < 256) (hfit : sizesFit f)
    (htx : f.tx_pwr_lvl_is_present = true →
      f.tx_pwr_lvl ≠ BLE_HS_ADV_TX_PWR_LVL_AUTO)
    (hsz : encodedSz f ≤ max_len) :
    (ble_hs_adv_set_fields f txq max_len).1 = 0 := by
  obtain ⟨hf16, hf32, hf128, hfname, hfs16, hfptgt, hfs32, hfs128, hfuri,
    hfmfg⟩ := hfit
  simp only [encodedSz] at hsz
  simp only [ble_hs_adv_set_fields]
  obtain ⟨sf, hfeq, hflen, hfb, hfd⟩ :=
    flags_step_spec BLE_HS_ADV_TYPE_FLAGS [f.flags % 256] max_len
      (f.flags_is_present && f.flags != 0) hmax
  rw [hfeq]
  rcases hfd with ⟨hc1, hlt3, -⟩ | hfdst
  · exfalso
    rw [hc1, if_pos rfl] at hsz
    omega
  · obtain ⟨s2, hok2, hlen2, hdst2⟩ :=
      runStep_array16_succ (f.uuids16.isSome && f.num_uuids16 != 0)
        (if f.uuids16_is_complete then BLE_HS_ADV_TYPE_COMP_UUIDS16 else BLE_HS_ADV_TYPE_INCOMP_UUIDS16) f.num_uuids16 (f.uuids16.getD []) max_len sf hf16 hmax hflen (by omega)
    rw [hok2]
    simp only [except_bind_ok]
    obtain ⟨s3, hok3, hlen3, hdst3⟩ :=
      runStep_array32_succ (f.uuids32.isSome && f.num_uuids32 != 0)
        (if f.uuids32_is_complete then BLE_HS_ADV_TYPE_COMP_UUIDS32 else BLE_HS_ADV_TYPE_INCOMP_UUIDS32) f.num_uuids32 (f.uuids32.getD []) max_len s2 hf32 hmax hlen2 (by omega)
    rw [hok3]
    simp only [except_bind_ok]
    obtain ⟨s4, hok4, hlen4, hdst4⟩ :=
      runStep_flat_succ (f.uuids128.isSome && f.num_uuids128 != 0)
        (if f.uuids128_is_complete then BLE_HS_ADV_TYPE_COMP_UUIDS128 else BLE_HS_ADV_TYPE_INCOMP_UUIDS128) (f.num_uuids128 * 16) (f.uuids128.getD []) max_len s3 hf128 hmax hlen3 (by omega)
    rw [hok4]
    simp only [except_bind_ok]
    obtain ⟨s5, hok5, hlen5, hdst5⟩ :=
      runStep_flat_succ (f.name.isSome && f.name_len != 0)
        (if f.name_is_complete then BLE_HS_ADV_TYPE_COMP_NAME else BLE_HS_ADV_TYPE_INCOMP_NAME) f.name_len (f.name.getD []) max_len s4 hfname hmax hlen4 (by omega)
    rw [hok5]
    simp only [except_bind_ok]
    obtain ⟨s6, hok6, hlen6, hdst6⟩ :=
      runStep_tx_succ f.tx_pwr_lvl_is_present
        txq f.tx_pwr_lvl max_len s5 hmax hlen5 (by omega) htx
    rw [hok6]
    simp only [except_bind_ok]
    obtain ⟨s7, hok7, hlen7, hdst7⟩ :=
      runStep_flat_succ f.device_class.isSome
        BLE_HS_ADV_TYPE_DEVICE_CLASS BLE_HS_ADV_DEVICE_CLASS_LEN (f.device_class.getD []) max_len s6 (by decide) hmax hlen6 (by omega)
    rw [hok7]
    simp only [except_bind_ok]
    obtain ⟨s8, hok8, hlen8, hdst8⟩ :=
      runStep_flat_succ f.slave_itvl_range.isSome
        BLE_HS_ADV_TYPE_SLAVE_ITVL_RANGE BLE_HS_ADV_SLAVE_ITVL_RANGE_LEN (f.slave_itvl_range.getD []) max_len s7 (by decide) hmax hlen7 (by omega)
    rw [hok8]
    simp only [except_bind_ok]
    obtain ⟨s9, hok9, hlen9, hdst9⟩ :=
      runStep_flat_succ f.svc_data_uuid16.isSome
        BLE_HS_ADV_TYPE_SVC_DATA_UUID16 f.svc_data_uuid16_len (f.svc_data_uuid16.getD []) max_len s8 hfs16 hmax hlen8 (by omega)
    rw [hok9]
    simp only [except_bind_ok]
    obtain ⟨s10, hok10, hlen10, hdst10⟩ :=
      runStep_flat_succ (f.public_tgt_addr.isSome && f.num_public_tgt_addrs != 0)
        BLE_HS_ADV_TYPE_PUBLIC_TGT_ADDR (BLE_HS_ADV_PUBLIC_TGT_ADDR_ENTRY_LEN * f.num_public_tgt_addrs) (f.public_tgt_addr.getD []) max_len s9 hfptgt hmax hlen9 (by omega)
    rw [hok10]
    simp only [except_bind_ok]
    obtain ⟨s11, hok11, hlen11, hdst11⟩ :=
      runStep_flat_succ f.appearance_is_present
        BLE_HS_ADV_TYPE_APPEARANCE BLE_HS_ADV_APPEARANCE_LEN (le16Bytes f.appearance) max_len s10 (by decide) hmax hlen10 (by omega)
    rw [hok11]
    simp only [except_bind_ok]
    obtain ⟨s12, hok12, hlen12, hdst12⟩ :=
      runStep_array16_succ f.adv_itvl_is_present
        BLE_HS_ADV_TYPE_ADV_ITVL 1 [f.adv_itvl] max_len s11 (by decide) hmax hlen11 (by omega)
    rw [hok12]
    simp only [except_bind_ok]
    obtain ⟨s13, hok13, hlen13, hdst13⟩ :=
      runStep_flat_succ f.le_addr.isSome
        BLE_HS_ADV_TYPE_LE_ADDR BLE_HS_ADV_LE_ADDR_LEN (f.le_addr.getD []) max_len s12 (by decide) hmax hlen12 (by omega)
    rw [hok13]
    simp only [except_bind_ok]
    obtain ⟨s14, hok14, hlen14, hdst14⟩ :=
      runStep_flat_succ f.le_role_is_present
        BLE_HS_ADV_TYPE_LE_ROLE BLE_HS_ADV_LE_ROLE_LEN [f.le_role % 256] max_len s13 (by decide) hmax hlen13 (by omega)
    rw [hok14]
    simp only [except_bind_ok]
    obtain ⟨s15, hok15, hlen15, hdst15⟩ :=
      runStep_flat_succ f.svc_data_uuid32.isSome
        BLE_HS_ADV_TYPE_SVC_DATA_UUID32 f.svc_data_uuid32_len (f.svc_data_uuid32.getD []) max_len s14 hfs32 hmax hlen14 (by omega)
    rw [hok15]
    simp only [except_bind_ok]
    obtain ⟨s16, hok16, hlen16, hdst16⟩ :=
      runStep_flat_succ f.svc_data_uuid128.isSome
        BLE_HS_ADV_TYPE_SVC_DATA_UUID128 f.svc_data_uuid128_len (f.svc_data_uuid128.getD []) max_len s15 hfs128 hmax hlen15 (by omega)
    rw [hok16]
    simp only [except_bind_ok]
    obtain ⟨s17, hok17, hlen17, hdst17⟩ :=
      runStep_flat_succ f.uri.isSome
        BLE_HS_ADV_TYPE_URI f.uri_len (f.uri.getD []) max_len s16 hfuri hmax hlen16 (by omega)
    rw [hok17]
    simp only [except_bind_ok]
    obtain ⟨s18, hok18, hlen18, hdst18⟩ :=
      runStep_flat_succ f.mfg_data.isSome
        BLE_HS_ADV_TYPE_MFG_DATA f.mfg_data_len (f.mfg_data.getD []) max_len s17 hfmfg hmax hlen17 (by omega)
    rw [hok18]
    simp only [except_bind_ok]
    rfl

/-- C3 (amended): provided no per-field payload size overflows the
uint8_t header arithmetic (sizesFit — without it the size guard checks a
truncated value while memcpy copies the full payload, see the
counterexample), the bytes ble_hs_adv_set_fields stores never exceed
max_len whether it succeeds or fails partway; and a field set that
additionally avoids the auto tx-power sentinel and whose total encoded
size is at most max_len is serialized completely with rc 0 and a final
*dst_len at most max_len. -/
theorem c3_size_invariant (f : ble_hs_adv_fields) (txq : Except Nat Int)
    (max_len : Nat) (hmax : max_len < 256) (hfit : sizesFit f) :
    (ble_hs_adv_set_fields f txq max_len).2.writes.length ≤ max_len ∧
    ((f.tx_pwr_lvl_is_present = true →
        f.tx_pwr_lvl ≠ BLE_HS_ADV_TX_PWR_LVL_AUTO) →
      encodedSz f ≤ max_len →
      (ble_hs_adv_set_fields f txq max_len).1 = 0 ∧
      (ble_hs_adv_set_fields f txq max_len).2.dst_len ≤ max_len) := by
  obtain ⟨h1, h2⟩ := set_fields_bounded f txq max_len hmax hfit
  exact ⟨by omega, fun htx hsz =>
    ⟨set_fields_rc0 f txq max_len hmax hfit htx hsz, h2⟩⟩

/-- Witness for c3_size_invariant: flags 0x06 plus LE role, encoded size
6, into a 31-byte destination. -/
theorem c3_size_invariant_witness :
    (ble_hs_adv_set_fields
        { flags := 6, flags_is_present := true,
          le_role := 1, le_role_is_present := true }
        (.ok 0) 31).2.writes.length ≤ 31 ∧
    (ble_hs_adv_set_fields
        { flags := 6, flags_is_present := true,
          le_role := 1, le_role_is_present := true }
        (.ok 0) 31).1 = 0 ∧
    (ble_hs_adv_set_fields
        { flags := 6, flags_is_present := true,
          le_role := 1, le_role_is_present := true }
        (.ok 0) 31).2.dst_len ≤ 31 :=
  ⟨(c3_size_invariant
      { flags := 6, flags_is_present := true,
        le_role := 1, le_role_is_present := true }
      (.ok 0) 31 (by decide) (by unfold sizesFit; decide)).1,
   ((c3_size_invariant
      { flags := 6, flags_is_present := true,
        le_role := 1, le_role_is_present := true }
      (.ok 0) 31 (by decide) (by unfold sizesFit; decide)).2 (by decide) (by decide)).1,
   ((c3_size_invariant
      { flags := 6, flags_is_present := true,
        le_role := 1, le_role_is_present := true }
      (.ok 0) 31 (by decide) (by unfold sizesFit; decide)).2 (by decide) (by decide)).2⟩
